import Mathlib

/-!
Shallow embedding of the `GasRelayer` Solidity contract (fee oracle /
relayer-compensation subsystem) and of the off-chain service layer
(`GasRelayerService`, `AlertManager`), together with proofs of the
spec's claims about them.

Conventions of the embedding:
* `uint256` is `Nat`; Solidity 0.8 checked arithmetic is modelled by
  `cMul`/`cAdd`/`cSub`, which revert (`Except.error .Overflow`) when the
  exact result would not fit in 256 bits or would go negative.
* An external call that reverts is an `Except.error`; EVM revert
  semantics mean the pre-call state is retained, which the `apply*`
  wrappers make explicit.
* `block.timestamp`, `tx.gasprice`, the WDOGE token balance of the
  contract, the outcome of token transfers, and role membership of the
  caller are environment inputs and are passed as parameters.
* Addresses are `Nat`; `relayerBalances` is a total function defaulting
  to `0`, exactly like a Solidity `mapping`.
-/

namespace GasRelayer

def UINT256_MAX : Nat := 2 ^ 256 - 1

/-- `1 hours` in seconds (GAS_PRICE_UPDATE_INTERVAL). -/
def GAS_PRICE_UPDATE_INTERVAL : Nat := 3600

/-- 50% maximum deviation (MAX_PRICE_DEVIATION). -/
def MAX_PRICE_DEVIATION : Nat := 50

/-- `1 gwei` (MIN_GAS_PRICE). -/
def MIN_GAS_PRICE : Nat := 10 ^ 9

/-- `500 gwei` (MAX_GAS_PRICE). -/
def MAX_GAS_PRICE : Nat := 500 * 10 ^ 9

/-- `1000 ether` (MAX_DAILY_COMPENSATION). -/
def MAX_DAILY_COMPENSATION : Nat := 1000 * 10 ^ 18

/-- `1 days` in seconds. -/
def ONE_DAY : Nat := 86400

/-- Revert outcomes of the contract: custom errors, `require` reason
strings (represented by a constructor each, see `revertReason`), the
`Pausable` / `AccessControl` reverts, and checked-arithmetic panics. -/
inductive Err where
  | TooSoon
  | InvalidGasPrice (price : Nat)
  | SuspiciousPriceMovement (oldPrice newPrice : Nat)
  | DailyLimitExceeded (amount limit : Nat)
  | InsufficientBalance (requested available : Nat)
  | TransferFailed
  | SystemPaused
  | NotPaused
  | MultiplierTooLow
  | MultiplierTooHigh
  | MissingRole
  | InvalidRecipient
  | EthTransferFailed
  | TokenTransferFailed
  | Overflow
  deriving DecidableEq, Repr

/-- The exact revert-reason text of the `require`-style reverts. -/
def revertReason : Err → Option String
  | .TooSoon => some "Too soon to update"
  | .MultiplierTooLow => some "Multiplier must be >= 100"
  | .MultiplierTooHigh => some "Multiplier must be <= 150"
  | .NotPaused => some "Must be paused"
  | .InvalidRecipient => some "Invalid recipient"
  | .EthTransferFailed => some "ETH transfer failed"
  | .TokenTransferFailed => some "Token transfer failed"
  | _ => none

/-- Events emitted by the contract. -/
inductive Ev where
  | GasPriceUpdated (newPrice timestamp : Nat)
  | RelayerCompensated (relayer amount : Nat)
  | PriceDeviationDetected (oldPrice newPrice deviation : Nat)
  | DailyLimitReset (timestamp : Nat)
  | EmergencyWithdrawal (token recipient amount : Nat)
  deriving DecidableEq, Repr

/-- The mutable storage of the `GasRelayer` contract. -/
structure State where
  gasPrice : Nat
  gasPriceLastUpdated : Nat
  relayerFeeMultiplier : Nat
  relayerBalances : Nat → Nat
  totalRelayerBalance : Nat
  dailyCompensation : Nat
  lastDailyReset : Nat
  paused : Bool

/-- Checked `uint256` multiplication (Solidity 0.8 reverts on overflow). -/
def cMul (a b : Nat) : Except Err Nat :=
  if a * b ≤ UINT256_MAX then .ok (a * b) else .error .Overflow

/-- Checked `uint256` addition. -/
def cAdd (a b : Nat) : Except Err Nat :=
  if a + b ≤ UINT256_MAX then .ok (a + b) else .error .Overflow

/-- Checked `uint256` subtraction. -/
def cSub (a b : Nat) : Except Err Nat :=
  if b ≤ a then .ok (a - b) else .error .Overflow

/-- The constructor: default gas price 100 gwei, multiplier 110,
timestamps set to deployment time, nothing accrued, not paused. -/
def initialState (deployTimestamp : Nat) : State where
  gasPrice := 100 * 10 ^ 9
  gasPriceLastUpdated := deployTimestamp
  relayerFeeMultiplier := 110
  relayerBalances := fun _ => 0
  totalRelayerBalance := 0
  dailyCompensation := 0
  lastDailyReset := deployTimestamp
  paused := false

/-- `resetDailyLimit()` (internal): zeroes `dailyCompensation` and moves
`lastDailyReset` forward iff at least one day has elapsed. -/
def resetDailyLimit (s : State) (blockTimestamp : Nat) : State × List Ev :=
  if s.lastDailyReset + ONE_DAY ≤ blockTimestamp then
    ({ s with dailyCompensation := 0, lastDailyReset := blockTimestamp },
      [.DailyLimitReset blockTimestamp])
  else
    (s, [])

/-- `updateGasPrice()`; `txGasPrice` is `tx.gasprice`. Modifier order is
`onlyRole(ORACLE_ROLE)` then `whenNotPaused`, then the body. -/
def updateGasPrice (s : State) (hasOracleRole : Bool)
    (blockTimestamp txGasPrice : Nat) : Except Err (State × List Ev) :=
  if hasOracleRole = false then .error .MissingRole
  else if s.paused then .error .SystemPaused
  else if blockTimestamp < s.gasPriceLastUpdated + GAS_PRICE_UPDATE_INTERVAL then
    .error .TooSoon
  else if txGasPrice < MIN_GAS_PRICE ∨ MAX_GAS_PRICE < txGasPrice then
    .error (.InvalidGasPrice txGasPrice)
  else if 0 < s.gasPrice then
    let diff := if s.gasPrice < txGasPrice then txGasPrice - s.gasPrice
      else s.gasPrice - txGasPrice
    match cMul diff 100 with
    | .error e => .error e
    | .ok d100 =>
      let deviation := d100 / s.gasPrice
      if MAX_PRICE_DEVIATION < deviation then
        .error (.SuspiciousPriceMovement s.gasPrice txGasPrice)
      else
        ((if 30 < deviation then
            .ok ({ s with
                    gasPrice := txGasPrice
                    gasPriceLastUpdated := blockTimestamp },
              [.PriceDeviationDetected s.gasPrice txGasPrice deviation,
                .GasPriceUpdated txGasPrice blockTimestamp])
          else
            .ok ({ s with
                    gasPrice := txGasPrice
                    gasPriceLastUpdated := blockTimestamp },
              [.GasPriceUpdated txGasPrice blockTimestamp])) : Except Err (State × List Ev))
  else
    .ok ({ s with gasPrice := txGasPrice, gasPriceLastUpdated := blockTimestamp },
      [.GasPriceUpdated txGasPrice blockTimestamp])

/-- `estimateGasFee(gasLimit)` (view): `gasPrice * gasLimit * relayerFeeMultiplier / 100`. -/
def estimateGasFee (s : State) (gasLimit : Nat) : Except Err Nat :=
  match cMul s.gasPrice gasLimit with
  | .error e => .error e
  | .ok pg =>
    match cMul pg s.relayerFeeMultiplier with
    | .error e => .error e
    | .ok pgm => .ok (pgm / 100)

/-- `compensateRelayer(relayer, gasUsed)`; modifier order is
`onlyRole(RELAYER_ROLE)`, `nonReentrant`, `whenNotPaused`. The body
first runs `resetDailyLimit()`; an `Except.error` reverts the whole
call, the reset included. -/
def compensateRelayer (s : State) (hasRelayerRole : Bool)
    (blockTimestamp relayer gasUsed : Nat) : Except Err (State × List Ev) :=
  if hasRelayerRole = false then .error .MissingRole
  else if s.paused then .error .SystemPaused
  else
    let s1 := (resetDailyLimit s blockTimestamp).1
    let evs1 := (resetDailyLimit s blockTimestamp).2
    match cMul s1.gasPrice gasUsed with
    | .error e => .error e
    | .ok pg =>
      match cMul pg s1.relayerFeeMultiplier with
      | .error e => .error e
      | .ok pgm =>
        let compensation := pgm / 100
        match cAdd s1.dailyCompensation compensation with
        | .error e => .error e
        | .ok dc =>
          if MAX_DAILY_COMPENSATION < dc then
            .error (.DailyLimitExceeded compensation
              (MAX_DAILY_COMPENSATION - s1.dailyCompensation))
          else
            match cAdd (s1.relayerBalances relayer) compensation with
            | .error e => .error e
            | .ok rb =>
              match cAdd s1.totalRelayerBalance compensation with
              | .error e => .error e
              | .ok trb =>
                .ok ({ s1 with
                        dailyCompensation := dc
                        relayerBalances :=
                          Function.update s1.relayerBalances relayer rb
                        totalRelayerBalance := trb },
                  evs1 ++ [.RelayerCompensated relayer compensation])

/-- `withdrawRelayerBalance()`; `caller` is `msg.sender`,
`contractTokenBalance` is `wdoge.balanceOf(address(this))`, and
`transferSucceeds` the boolean returned by `wdoge.transfer`. Returns the
post-state and the amount transferred. -/
def withdrawRelayerBalance (s : State) (caller : Nat)
    (contractTokenBalance : Nat) (transferSucceeds : Bool) :
    Except Err (State × Nat) :=
  if s.paused then .error .SystemPaused
  else
    let balance := s.relayerBalances caller
    if balance = 0 then .error (.InsufficientBalance 0 0)
    else if contractTokenBalance < balance then
      .error (.InsufficientBalance balance contractTokenBalance)
    else
      match cSub s.totalRelayerBalance balance with
      | .error e => .error e
      | .ok trb =>
        if transferSucceeds then
          .ok ({ s with
                  relayerBalances := Function.update s.relayerBalances caller 0
                  totalRelayerBalance := trb }, balance)
        else .error .TransferFailed

/-- `setRelayerFeeMultiplier(_multiplier)`: `onlyRole(DEFAULT_ADMIN_ROLE)`
only — the source has no `whenNotPaused` modifier here. -/
def setRelayerFeeMultiplier (s : State) (hasAdminRole : Bool) (m : Nat) :
    Except Err State :=
  if hasAdminRole = false then .error .MissingRole
  else if m < 100 then .error .MultiplierTooLow
  else if 150 < m then .error .MultiplierTooHigh
  else .ok { s with relayerFeeMultiplier := m }

/-- `pause()`: admin only; OpenZeppelin `_pause` requires not paused. -/
def pause (s : State) (hasAdminRole : Bool) : Except Err State :=
  if hasAdminRole = false then .error .MissingRole
  else if s.paused then .error .SystemPaused
  else .ok { s with paused := true }

/-- `unpause()`: admin only; OpenZeppelin `_unpause` requires paused. -/
def unpause (s : State) (hasAdminRole : Bool) : Except Err State :=
  if hasAdminRole = false then .error .MissingRole
  else if s.paused = false then .error .NotPaused
  else .ok { s with paused := false }

/-- `emergencyWithdraw(token, recipient)`: admin only, requires the
contract to be paused; transfers the whole held amount out. The held
amount and the success of the ETH/token transfer are environment
inputs. Contract storage is untouched. -/
def emergencyWithdraw (s : State) (hasAdminRole : Bool)
    (token recipient heldAmount : Nat) (transferSucceeds : Bool) :
    Except Err (State × List Ev) :=
  if hasAdminRole = false then .error .MissingRole
  else if s.paused = false then .error .NotPaused
  else if recipient = 0 then .error .InvalidRecipient
  else if token = 0 then
    if transferSucceeds then
      .ok (s, [.EmergencyWithdrawal token recipient heldAmount])
    else .error .EthTransferFailed
  else
    if transferSucceeds then
      .ok (s, [.EmergencyWithdrawal token recipient heldAmount])
    else .error .TokenTransferFailed

/-- EVM revert semantics for `withdrawRelayerBalance`: a reverted call
leaves the chain state as it was. -/
def applyWithdraw (s : State) (caller contractTokenBalance : Nat)
    (transferSucceeds : Bool) : State :=
  match withdrawRelayerBalance s caller contractTokenBalance transferSucceeds with
  | .ok (s', _) => s'
  | .error _ => s

/-- EVM revert semantics for `updateGasPrice`. -/
def applyUpdate (s : State) (hasOracleRole : Bool)
    (blockTimestamp txGasPrice : Nat) : State :=
  match updateGasPrice s hasOracleRole blockTimestamp txGasPrice with
  | .ok (s', _) => s'
  | .error _ => s

/-- EVM revert semantics for `compensateRelayer`. -/
def applyCompensate (s : State) (hr : Bool) (t r g : Nat) : State :=
  match compensateRelayer s hr t r g with
  | .ok (s', _) => s'
  | .error _ => s

/-- EVM revert semantics for `setRelayerFeeMultiplier`. -/
def applySetMult (s : State) (ha : Bool) (m : Nat) : State :=
  match setRelayerFeeMultiplier s ha m with
  | .ok s' => s'
  | .error _ => s

/-- A freshly deployed contract that the admin has paused. -/
def pausedInit : State := { initialState 0 with paused := true }

/-- A state whose daily compensation already sits at the cap. -/
def atCapState : State :=
  { initialState 0 with dailyCompensation := MAX_DAILY_COMPENSATION }

/-- A state in which relayer 3 has accrued 100 wei, all of it backed by
pooled funds. -/
def fundedState : State :=
  { initialState 0 with
      relayerBalances := Function.update (fun _ => 0) 3 100
      totalRelayerBalance := 100 }

/-- One successful (non-reverting) external transaction of the contract.
A reverted transaction leaves the state unchanged and so never leaves
the reachable set. -/
inductive Step : State → State → Prop
  | update (s : State) (hr : Bool) (t p : Nat) (s' : State) (evs : List Ev) :
      updateGasPrice s hr t p = .ok (s', evs) → Step s s'
  | compensate (s : State) (hr : Bool) (t r g : Nat) (s' : State) (evs : List Ev) :
      compensateRelayer s hr t r g = .ok (s', evs) → Step s s'
  | withdraw (s : State) (caller cb : Nat) (ts : Bool) (s' : State) (amt : Nat) :
      withdrawRelayerBalance s caller cb ts = .ok (s', amt) → Step s s'
  | setMult (s : State) (ha : Bool) (m : Nat) (s' : State) :
      setRelayerFeeMultiplier s ha m = .ok s' → Step s s'
  | doPause (s : State) (ha : Bool) (s' : State) :
      pause s ha = .ok s' → Step s s'
  | doUnpause (s : State) (ha : Bool) (s' : State) :
      unpause s ha = .ok s' → Step s s'
  | emergency (s : State) (ha : Bool) (tok rec amt : Nat) (ts : Bool)
      (s' : State) (evs : List Ev) :
      emergencyWithdraw s ha tok rec amt ts = .ok (s', evs) → Step s s'

/-- States reachable from deployment by successful transactions. -/
inductive Reachable : State → Prop
  | init (deployTimestamp : Nat) : Reachable (initialState deployTimestamp)
  | step {s s' : State} : Reachable s → Step s s' → Reachable s'

/-- `totalRelayerBalance` is the sum of `relayerBalances` over every
finite set of addresses that carries all the nonzero balances. -/
def BalanceSumInv (s : State) : Prop :=
  ∀ S : Finset Nat, (∀ a, a ∉ S → s.relayerBalances a = 0) →
    s.totalRelayerBalance = ∑ a ∈ S, s.relayerBalances a

end GasRelayer

namespace Service

/-!
Off-chain service layer, from `GasRelayerService` and `AlertManager`.
A `Promise` that can reject is `Except String`; the outcome of the
underlying contract call at each attempt number (1-based) is an
environment input `op : Nat → Except String T`.
-/

/-- One `retryWithBackoff` run starting at a given attempt number.
Mirrors the `for` loop: try the operation; on success return; on failure
at the last allowed attempt throw a wrapping error, otherwise sleep and
try again. Returns the outcome together with the number of the attempt
on which the loop exited. -/
def retryFrom {T : Type} (op : Nat → Except String T)
    (attempt maxAttempts : Nat) : Except String T × Nat :=
  match op attempt with
  | .ok v => (.ok v, attempt)
  | .error e =>
    if attempt = maxAttempts then
      (.error ("Failed after " ++ toString attempt ++
        " attempts. Last error: " ++ e), attempt)
    else if attempt < maxAttempts then
      retryFrom op (attempt + 1) maxAttempts
    else
      (.error e, attempt)
termination_by maxAttempts - attempt

/-- `retryWithBackoff(operation, options)`: attempts start at 1. -/
def retryWithBackoff {T : Type} (op : Nat → Except String T)
    (maxAttempts : Nat) : Except String T × Nat :=
  retryFrom op 1 maxAttempts

/-- `defaultRetryOptions.maxAttempts`. -/
def defaultMaxAttempts : Nat := 3

/-- `GasRelayerService.compensateRelayer`: wraps the contract call in
`retryWithBackoff` with the default options; if that still fails, sends
an alert and rethrows. Returns the outcome, the number of the attempt on
which the retry loop exited, and the titles of alerts sent. -/
def serviceCompensateRelayer (contractCall : Nat → Except String Unit) :
    Except String Unit × Nat × List String :=
  match retryWithBackoff contractCall defaultMaxAttempts with
  | (.ok v, n) => (.ok v, n, [])
  | (.error e, n) => (.error e, n, ["Relayer Compensation Failed"])

/-- `GasRelayerService.withdrawRelayerBalance`: same retry wrapper, with
its own alert title. -/
def serviceWithdrawRelayerBalance (contractCall : Nat → Except String Unit) :
    Except String Unit × Nat × List String :=
  match retryWithBackoff contractCall defaultMaxAttempts with
  | (.ok v, n) => (.ok v, n, [])
  | (.error e, n) => (.error e, n, ["Withdrawal Failed"])

/-- Outcome of the `fetch` of the alert webhook: resolved with
`response.ok`, resolved with a non-OK status, or rejected. -/
inductive WebhookOutcome where
  | okResponse
  | httpError (statusText : String)
  | fetchThrew (message : String)
  deriving DecidableEq, Repr

/-- The `try` block of `AlertManager.sendAlert`: awaits the fetch — a
rejected promise propagates as an exception — and logs when the response
is not OK. Returns the console-error lines it produced. -/
def sendAlertBody (o : WebhookOutcome) : Except String (List String) :=
  match o with
  | .fetchThrew msg => .error msg
  | .okResponse => .ok []
  | .httpError st => .ok ["Failed to send alert: " ++ st]

/-- `AlertManager.sendAlert`: the `catch` block logs the exception and
does not rethrow. -/
def sendAlert (o : WebhookOutcome) : Except String (List String) :=
  match sendAlertBody o with
  | .ok logs => .ok logs
  | .error e => .ok ["Error sending alert: " ++ e]

/-- A contract-call behaviour that fails transiently on the first
attempt and succeeds on the second. -/
def flakyCall : Nat → Except String Unit :=
  fun attempt => if attempt ≤ 1 then .error "RPC timeout" else .ok ()

/-- A contract-call behaviour that always succeeds. -/
def alwaysOk : Nat → Except String Unit := fun _ => .ok ()

end Service

namespace GasRelayer

theorem cMul_ok {a b v : Nat} : cMul a b = .ok v ↔ a * b ≤ UINT256_MAX ∧ v = a * b := by
  unfold cMul
  split <;> simp_all [eq_comm]

theorem cAdd_ok {a b v : Nat} : cAdd a b = .ok v ↔ a + b ≤ UINT256_MAX ∧ v = a + b := by
  unfold cAdd
  split <;> simp_all [eq_comm]

theorem cSub_ok {a b v : Nat} : cSub a b = .ok v ↔ b ≤ a ∧ v = a - b := by
  unfold cSub
  split <;> simp_all [eq_comm]

theorem resetDailyLimit_gasPrice (s : State) (t : Nat) :
    ((resetDailyLimit s t).1).gasPrice = s.gasPrice := by
  unfold resetDailyLimit
  split <;> rfl

theorem resetDailyLimit_mult (s : State) (t : Nat) :
    ((resetDailyLimit s t).1).relayerFeeMultiplier = s.relayerFeeMultiplier := by
  unfold resetDailyLimit
  split <;> rfl

theorem resetDailyLimit_balances (s : State) (t : Nat) :
    ((resetDailyLimit s t).1).relayerBalances = s.relayerBalances := by
  unfold resetDailyLimit
  split <;> rfl

theorem resetDailyLimit_total (s : State) (t : Nat) :
    ((resetDailyLimit s t).1).totalRelayerBalance = s.totalRelayerBalance := by
  unfold resetDailyLimit
  split <;> rfl

theorem resetDailyLimit_paused (s : State) (t : Nat) :
    ((resetDailyLimit s t).1).paused = s.paused := by
  unfold resetDailyLimit
  split <;> rfl

theorem resetDailyLimit_daily (s : State) (t : Nat) :
    ((resetDailyLimit s t).1).dailyCompensation =
      if s.lastDailyReset + ONE_DAY ≤ t then 0 else s.dailyCompensation := by
  unfold resetDailyLimit
  split <;> simp_all

theorem resetDailyLimit_lastReset (s : State) (t : Nat) :
    ((resetDailyLimit s t).1).lastDailyReset =
      if s.lastDailyReset + ONE_DAY ≤ t then t else s.lastDailyReset := by
  unfold resetDailyLimit
  split <;> simp_all

/-- Complete characterization of a successful `compensateRelayer` call. -/
theorem compensateRelayer_ok_iff (s : State) (hr : Bool) (t r g : Nat)
    (s' : State) (evs : List Ev) :
    compensateRelayer s hr t r g = .ok (s', evs) ↔
      (hr = true ∧ s.paused = false ∧
        (resetDailyLimit s t).1.gasPrice * g ≤ UINT256_MAX ∧
        (resetDailyLimit s t).1.gasPrice * g * (resetDailyLimit s t).1.relayerFeeMultiplier
          ≤ UINT256_MAX ∧
        (resetDailyLimit s t).1.dailyCompensation +
          (resetDailyLimit s t).1.gasPrice * g * (resetDailyLimit s t).1.relayerFeeMultiplier / 100
          ≤ UINT256_MAX ∧
        (resetDailyLimit s t).1.dailyCompensation +
          (resetDailyLimit s t).1.gasPrice * g * (resetDailyLimit s t).1.relayerFeeMultiplier / 100
          ≤ MAX_DAILY_COMPENSATION ∧
        (resetDailyLimit s t).1.relayerBalances r +
          (resetDailyLimit s t).1.gasPrice * g * (resetDailyLimit s t).1.relayerFeeMultiplier / 100
          ≤ UINT256_MAX ∧
        (resetDailyLimit s t).1.totalRelayerBalance +
          (resetDailyLimit s t).1.gasPrice * g * (resetDailyLimit s t).1.relayerFeeMultiplier / 100
          ≤ UINT256_MAX ∧
        s' = { (resetDailyLimit s t).1 with
                dailyCompensation := (resetDailyLimit s t).1.dailyCompensation +
                  (resetDailyLimit s t).1.gasPrice * g *
                    (resetDailyLimit s t).1.relayerFeeMultiplier / 100
                relayerBalances := Function.update (resetDailyLimit s t).1.relayerBalances r
                  ((resetDailyLimit s t).1.relayerBalances r +
                    (resetDailyLimit s t).1.gasPrice * g *
                      (resetDailyLimit s t).1.relayerFeeMultiplier / 100)
                totalRelayerBalance := (resetDailyLimit s t).1.totalRelayerBalance +
                  (resetDailyLimit s t).1.gasPrice * g *
                    (resetDailyLimit s t).1.relayerFeeMultiplier / 100 } ∧
        evs = (resetDailyLimit s t).2 ++
          [.RelayerCompensated r
            ((resetDailyLimit s t).1.gasPrice * g *
              (resetDailyLimit s t).1.relayerFeeMultiplier / 100)]) := by
  unfold compensateRelayer
  constructor
  · intro h
    split at h
    · exact absurd h (by simp)
    split at h
    · exact absurd h (by simp)
    · rename_i hrole hpause
      simp only at h
      split at h <;> rename_i hm1
      · exact absurd h (by simp)
      split at h <;> rename_i hm2
      · exact absurd h (by simp)
      split at h <;> rename_i hm3
      · exact absurd h (by simp)
      split at h
      · exact absurd h (by simp)
      split at h <;> rename_i hm4
      · exact absurd h (by simp)
      split at h <;> rename_i hm5
      · exact absurd h (by simp)
      · simp only [Except.ok.injEq, Prod.mk.injEq] at h
        obtain ⟨hs', hevs⟩ := h
        rw [cMul_ok] at hm1 hm2
        rw [cAdd_ok] at hm3 hm4 hm5
        obtain ⟨hb1, rfl⟩ := hm1
        obtain ⟨hb2, rfl⟩ := hm2
        obtain ⟨hb3, rfl⟩ := hm3
        obtain ⟨hb4, rfl⟩ := hm4
        obtain ⟨hb5, rfl⟩ := hm5
        refine ⟨by simpa using hrole, by simpa using hpause, hb1, hb2, hb3, by omega,
          hb4, hb5, hs'.symm, hevs.symm⟩
  · rintro ⟨hrole, hpause, hb1, hb2, hb3, hcap, hb4, hb5, rfl, rfl⟩
    subst hrole
    have e1 : cMul (resetDailyLimit s t).1.gasPrice g =
        .ok ((resetDailyLimit s t).1.gasPrice * g) := cMul_ok.mpr ⟨hb1, rfl⟩
    have e2 : cMul ((resetDailyLimit s t).1.gasPrice * g)
        (resetDailyLimit s t).1.relayerFeeMultiplier =
        .ok ((resetDailyLimit s t).1.gasPrice * g *
          (resetDailyLimit s t).1.relayerFeeMultiplier) := cMul_ok.mpr ⟨hb2, rfl⟩
    have e3 : cAdd (resetDailyLimit s t).1.dailyCompensation
        ((resetDailyLimit s t).1.gasPrice * g *
          (resetDailyLimit s t).1.relayerFeeMultiplier / 100) =
        .ok ((resetDailyLimit s t).1.dailyCompensation +
          (resetDailyLimit s t).1.gasPrice * g *
            (resetDailyLimit s t).1.relayerFeeMultiplier / 100) := cAdd_ok.mpr ⟨hb3, rfl⟩
    have e4 : cAdd ((resetDailyLimit s t).1.relayerBalances r)
        ((resetDailyLimit s t).1.gasPrice * g *
          (resetDailyLimit s t).1.relayerFeeMultiplier / 100) =
        .ok ((resetDailyLimit s t).1.relayerBalances r +
          (resetDailyLimit s t).1.gasPrice * g *
            (resetDailyLimit s t).1.relayerFeeMultiplier / 100) := cAdd_ok.mpr ⟨hb4, rfl⟩
    have e5 : cAdd (resetDailyLimit s t).1.totalRelayerBalance
        ((resetDailyLimit s t).1.gasPrice * g *
          (resetDailyLimit s t).1.relayerFeeMultiplier / 100) =
        .ok ((resetDailyLimit s t).1.totalRelayerBalance +
          (resetDailyLimit s t).1.gasPrice * g *
            (resetDailyLimit s t).1.relayerFeeMultiplier / 100) := cAdd_ok.mpr ⟨hb5, rfl⟩
    have hif : ¬ (MAX_DAILY_COMPENSATION < (resetDailyLimit s t).1.dailyCompensation +
        (resetDailyLimit s t).1.gasPrice * g *
          (resetDailyLimit s t).1.relayerFeeMultiplier / 100) := by omega
    simp only [hpause, e1, e2, e3, e4, e5, if_neg hif, Bool.true_eq_false, if_false,
      Bool.false_eq_true]

/-- Complete characterization of a successful `withdrawRelayerBalance` call. -/
theorem withdrawRelayerBalance_ok_iff (s : State) (caller cb : Nat) (ts : Bool)
    (s' : State) (amt : Nat) :
    withdrawRelayerBalance s caller cb ts = .ok (s', amt) ↔
      (s.paused = false ∧ s.relayerBalances caller ≠ 0 ∧
        s.relayerBalances caller ≤ cb ∧
        s.relayerBalances caller ≤ s.totalRelayerBalance ∧ ts = true ∧
        amt = s.relayerBalances caller ∧
        s' = { s with
                relayerBalances := Function.update s.relayerBalances caller 0
                totalRelayerBalance :=
                  s.totalRelayerBalance - s.relayerBalances caller }) := by
  unfold withdrawRelayerBalance
  constructor
  · intro h
    by_cases hp : s.paused = true
    · rw [if_pos hp] at h
      exact absurd h (by simp)
    rw [if_neg hp] at h
    simp only at h
    by_cases hz : s.relayerBalances caller = 0
    · rw [if_pos hz] at h
      exact absurd h (by simp)
    rw [if_neg hz] at h
    by_cases hcb : cb < s.relayerBalances caller
    · rw [if_pos hcb] at h
      exact absurd h (by simp)
    rw [if_neg hcb] at h
    by_cases hle : s.relayerBalances caller ≤ s.totalRelayerBalance
    · have e1 : cSub s.totalRelayerBalance (s.relayerBalances caller) =
          .ok (s.totalRelayerBalance - s.relayerBalances caller) := cSub_ok.mpr ⟨hle, rfl⟩
      simp only [e1] at h
      by_cases hts : ts = true
      · simp only [hts, if_true, Except.ok.injEq, Prod.mk.injEq] at h
        obtain ⟨hs', hamt⟩ := h
        exact ⟨by simpa using hp, hz, by omega, hle, hts, hamt.symm, hs'.symm⟩
      · simp only [if_neg hts] at h
        exact absurd h (by simp)
    · have e1 : cSub s.totalRelayerBalance (s.relayerBalances caller) =
          .error .Overflow := by
        unfold cSub
        rw [if_neg hle]
      simp only [e1] at h
      exact absurd h (by simp)
  · rintro ⟨hpause, hz, hcb, hle, rfl, rfl, rfl⟩
    have e1 : cSub s.totalRelayerBalance (s.relayerBalances caller) =
        .ok (s.totalRelayerBalance - s.relayerBalances caller) := cSub_ok.mpr ⟨hle, rfl⟩
    simp only [hpause, Bool.false_eq_true, if_false, if_neg hz,
      if_neg (show ¬ cb < s.relayerBalances caller from by omega), e1, if_true]

/-- A successful `updateGasPrice` only touches `gasPrice` and
`gasPriceLastUpdated`, setting them to the observed price and the block
timestamp, and always emits `GasPriceUpdated`. -/
theorem updateGasPrice_ok_frame (s : State) (hr : Bool) (t p : Nat)
    (s' : State) (evs : List Ev)
    (h : updateGasPrice s hr t p = .ok (s', evs)) :
    s' = { s with gasPrice := p, gasPriceLastUpdated := t } ∧
      Ev.GasPriceUpdated p t ∈ evs := by
  unfold updateGasPrice at h
  split at h
  · exact absurd h (by simp)
  split at h
  · exact absurd h (by simp)
  split at h
  · exact absurd h (by simp)
  split at h
  · exact absurd h (by simp)
  split at h
  · simp only at h
    split at h
    · exact absurd h (by simp)
    split at h
    · exact absurd h (by simp)
    split at h <;>
      (simp only [Except.ok.injEq, Prod.mk.injEq] at h
       obtain ⟨hs', hevs⟩ := h
       exact ⟨hs'.symm, by simp [← hevs]⟩)
  · simp only [Except.ok.injEq, Prod.mk.injEq] at h
    obtain ⟨hs', hevs⟩ := h
    exact ⟨hs'.symm, by simp [← hevs]⟩

theorem setRelayerFeeMultiplier_ok_shape (s : State) (ha : Bool) (m : Nat) (s' : State)
    (h : setRelayerFeeMultiplier s ha m = .ok s') :
    s' = { s with relayerFeeMultiplier := m } ∧ 100 ≤ m ∧ m ≤ 150 := by
  unfold setRelayerFeeMultiplier at h
  split at h
  · exact absurd h (by simp)
  split at h
  · exact absurd h (by simp)
  split at h
  · exact absurd h (by simp)
  · rename_i h1 h2 h3
    simp only [Except.ok.injEq] at h
    exact ⟨h.symm, by omega, by omega⟩

theorem pause_ok_shape (s : State) (ha : Bool) (s' : State)
    (h : pause s ha = .ok s') : s' = { s with paused := true } := by
  unfold pause at h
  split at h
  · exact absurd h (by simp)
  split at h
  · exact absurd h (by simp)
  · simp only [Except.ok.injEq] at h
    exact h.symm

theorem unpause_ok_shape (s : State) (ha : Bool) (s' : State)
    (h : unpause s ha = .ok s') : s' = { s with paused := false } := by
  unfold unpause at h
  split at h
  · exact absurd h (by simp)
  split at h
  · exact absurd h (by simp)
  · simp only [Except.ok.injEq] at h
    exact h.symm

theorem emergencyWithdraw_ok_shape (s : State) (ha : Bool) (tok rcp amt : Nat)
    (ts : Bool) (s' : State) (evs : List Ev)
    (h : emergencyWithdraw s ha tok rcp amt ts = .ok (s', evs)) :
    s' = s ∧ s.paused = true := by
  unfold emergencyWithdraw at h
  split at h
  · exact absurd h (by simp)
  split at h
  · exact absurd h (by simp)
  split at h
  · exact absurd h (by simp)
  · rename_i h1 h2 h3
    have hp : s.paused = true := by
      revert h2
      cases s.paused <;> simp
    split at h
    · split at h
      · simp only [Except.ok.injEq, Prod.mk.injEq] at h
        exact ⟨h.1.symm, hp⟩
      · exact absurd h (by simp)
    · split at h
      · simp only [Except.ok.injEq, Prod.mk.injEq] at h
        exact ⟨h.1.symm, hp⟩
      · exact absurd h (by simp)

theorem compensateRelayer_ok_balances (s : State) (hr : Bool) (t r g : Nat)
    (s' : State) (evs : List Ev)
    (h : compensateRelayer s hr t r g = .ok (s', evs)) :
    s'.relayerBalances = Function.update s.relayerBalances r
      (s.relayerBalances r + s.gasPrice * g * s.relayerFeeMultiplier / 100) ∧
    s'.totalRelayerBalance = s.totalRelayerBalance +
      s.gasPrice * g * s.relayerFeeMultiplier / 100 ∧
    s'.dailyCompensation ≤ MAX_DAILY_COMPENSATION := by
  rw [compensateRelayer_ok_iff] at h
  obtain ⟨-, -, -, -, -, hcap, -, -, rfl, -⟩ := h
  rw [resetDailyLimit_gasPrice, resetDailyLimit_mult] at hcap
  refine ⟨?_, ?_, ?_⟩ <;>
    simp [resetDailyLimit_balances, resetDailyLimit_gasPrice, resetDailyLimit_mult,
      resetDailyLimit_total, hcap]

theorem withdrawRelayerBalance_ok_balances (s : State) (caller cb : Nat) (ts : Bool)
    (s' : State) (amt : Nat)
    (h : withdrawRelayerBalance s caller cb ts = .ok (s', amt)) :
    amt = s.relayerBalances caller ∧
    s'.relayerBalances = Function.update s.relayerBalances caller 0 ∧
    s'.totalRelayerBalance = s.totalRelayerBalance - s.relayerBalances caller ∧
    s.relayerBalances caller ≤ s.totalRelayerBalance := by
  rw [withdrawRelayerBalance_ok_iff] at h
  obtain ⟨-, -, -, hle, -, rfl, rfl⟩ := h
  exact ⟨rfl, rfl, rfl, hle⟩

theorem balanceSumInv_initial (t : Nat) : BalanceSumInv (initialState t) := by
  intro S hS
  simp [initialState]

theorem balanceSumInv_add (bal : Nat → Nat) (total r c : Nat)
    (hinv : ∀ S : Finset Nat, (∀ a, a ∉ S → bal a = 0) → total = ∑ a ∈ S, bal a) :
    ∀ S : Finset Nat, (∀ a, a ∉ S → Function.update bal r (bal r + c) a = 0) →
      total + c = ∑ a ∈ S, Function.update bal r (bal r + c) a := by
  intro S hS
  by_cases hr : r ∈ S
  · have hbal : ∀ a, a ∉ S → bal a = 0 := by
      intro a ha
      have hne : a ≠ r := fun hEq => ha (hEq ▸ hr)
      have := hS a ha
      rwa [Function.update_noteq hne] at this
    have htot := hinv S hbal
    rw [Finset.sum_update_of_mem hr]
    have hsum := Finset.sum_eq_sum_diff_singleton_add hr bal
    omega
  · have hzero := hS r hr
    rw [Function.update_same] at hzero
    have hc : c = 0 := by omega
    have hbr : bal r = 0 := by omega
    have hbal : ∀ a, a ∉ S → bal a = 0 := by
      intro a ha
      by_cases hne : a = r
      · exact hne ▸ hbr
      · have := hS a ha
        rwa [Function.update_noteq hne] at this
    have htot := hinv S hbal
    have hsum : ∑ a ∈ S, Function.update bal r (bal r + c) a = ∑ a ∈ S, bal a := by
      refine Finset.sum_congr rfl fun a haS => ?_
      have hne : a ≠ r := by
        intro hEq
        subst hEq
        exact hr haS
      exact Function.update_noteq hne _ _
    omega

theorem balanceSumInv_zero (bal : Nat → Nat) (total caller : Nat)
    (hinv : ∀ S : Finset Nat, (∀ a, a ∉ S → bal a = 0) → total = ∑ a ∈ S, bal a) :
    ∀ S : Finset Nat, (∀ a, a ∉ S → Function.update bal caller 0 a = 0) →
      total - bal caller = ∑ a ∈ S, Function.update bal caller 0 a := by
  intro S hS
  by_cases hc : caller ∈ S
  · have hbal : ∀ a, a ∉ S → bal a = 0 := by
      intro a ha
      have hne : a ≠ caller := fun hEq => ha (hEq ▸ hc)
      have := hS a ha
      rwa [Function.update_noteq hne] at this
    have htot := hinv S hbal
    rw [Finset.sum_update_of_mem hc]
    have hsum := Finset.sum_eq_sum_diff_singleton_add hc bal
    omega
  · have hbal : ∀ a, a ∉ insert caller S → bal a = 0 := by
      intro a ha
      have h1 : a ∉ S := fun hmem => ha (Finset.mem_insert_of_mem hmem)
      have h2 : a ≠ caller := fun hEq => ha (hEq ▸ Finset.mem_insert_self _ _)
      have := hS a h1
      rwa [Function.update_noteq h2] at this
    have htot := hinv _ hbal
    rw [Finset.sum_insert hc] at htot
    have hsum : ∑ a ∈ S, Function.update bal caller 0 a = ∑ a ∈ S, bal a := by
      refine Finset.sum_congr rfl fun a haS => ?_
      have hne : a ≠ caller := by
        intro hEq
        subst hEq
        exact hc haS
      exact Function.update_noteq hne _ _
    rw [hsum]
    omega

theorem step_preserves_balanceSumInv {s s' : State} (hstep : Step s s')
    (ih : BalanceSumInv s) : BalanceSumInv s' := by
  cases hstep <;> rename_i h
  case update =>
    obtain ⟨rfl, -⟩ := updateGasPrice_ok_frame _ _ _ _ _ _ h
    intro S hS
    exact ih S hS
  case compensate =>
    obtain ⟨hb, ht, -⟩ := compensateRelayer_ok_balances _ _ _ _ _ _ _ h
    intro S hS
    rw [ht, hb]
    rw [hb] at hS
    exact balanceSumInv_add _ _ _ _ ih S hS
  case withdraw =>
    obtain ⟨-, hb, ht, hle⟩ := withdrawRelayerBalance_ok_balances _ _ _ _ _ _ h
    intro S hS
    rw [ht, hb]
    rw [hb] at hS
    exact balanceSumInv_zero _ _ _ ih S hS
  case setMult =>
    obtain ⟨rfl, -, -⟩ := setRelayerFeeMultiplier_ok_shape _ _ _ _ h
    intro S hS
    exact ih S hS
  case doPause =>
    rw [pause_ok_shape _ _ _ h]
    intro S hS
    exact ih S hS
  case doUnpause =>
    rw [unpause_ok_shape _ _ _ h]
    intro S hS
    exact ih S hS
  case emergency =>
    obtain ⟨rfl, -⟩ := emergencyWithdraw_ok_shape _ _ _ _ _ _ _ _ h
    exact ih

theorem reachable_balanceSumInv {s : State} (h : Reachable s) : BalanceSumInv s := by
  induction h with
  | init t => exact balanceSumInv_initial t
  | step hreach hstep ih => exact step_preserves_balanceSumInv hstep ih

theorem estimateGasFee_congr (s1 s2 : State) (hg : s1.gasPrice = s2.gasPrice)
    (hm : s1.relayerFeeMultiplier = s2.relayerFeeMultiplier) (g : Nat) :
    estimateGasFee s1 g = estimateGasFee s2 g := by
  unfold estimateGasFee
  rw [hg, hm]

theorem applyWithdraw_price_mult (s : State) (caller cb : Nat) (ts : Bool) :
    (applyWithdraw s caller cb ts).gasPrice = s.gasPrice ∧
    (applyWithdraw s caller cb ts).relayerFeeMultiplier = s.relayerFeeMultiplier := by
  unfold applyWithdraw
  cases hres : withdrawRelayerBalance s caller cb ts with
  | error e => exact ⟨rfl, rfl⟩
  | ok p =>
    obtain ⟨s', amt⟩ := p
    rw [withdrawRelayerBalance_ok_iff] at hres
    obtain ⟨-, -, -, -, -, -, rfl⟩ := hres
    exact ⟨rfl, rfl⟩

end GasRelayer

namespace Service

theorem serviceCompensateRelayer_eq (op : Nat → Except String Unit) :
    serviceCompensateRelayer op =
      ((retryWithBackoff op defaultMaxAttempts).1,
       (retryWithBackoff op defaultMaxAttempts).2,
       match (retryWithBackoff op defaultMaxAttempts).1 with
       | .ok _ => []
       | .error _ => ["Relayer Compensation Failed"]) := by
  unfold serviceCompensateRelayer
  cases h : retryWithBackoff op defaultMaxAttempts with
  | mk r n => cases r <;> simp [h]

theorem serviceWithdrawRelayerBalance_eq (op : Nat → Except String Unit) :
    serviceWithdrawRelayerBalance op =
      ((retryWithBackoff op defaultMaxAttempts).1,
       (retryWithBackoff op defaultMaxAttempts).2,
       match (retryWithBackoff op defaultMaxAttempts).1 with
       | .ok _ => []
       | .error _ => ["Withdrawal Failed"]) := by
  unfold serviceWithdrawRelayerBalance
  cases h : retryWithBackoff op defaultMaxAttempts with
  | mk r n => cases r <;> simp [h]

end Service

namespace Service

theorem retryFrom_first_ok {T : Type} (op : Nat → Except String T)
    (attempt maxA : Nat) (v : T) (h : op attempt = .ok v) :
    retryFrom op attempt maxA = (.ok v, attempt) := by
  unfold retryFrom
  rw [h]

theorem retryFrom_exit_bounds {T : Type} (op : Nat → Except String T) :
    ∀ d attempt maxA, maxA - attempt ≤ d → attempt ≤ maxA →
      attempt ≤ (retryFrom op attempt maxA).2 ∧ (retryFrom op attempt maxA).2 ≤ maxA := by
  intro d
  induction d with
  | zero =>
    intro a mA hd hle
    have ha : a = mA := by omega
    subst ha
    unfold retryFrom
    cases hop : op a <;> simp
  | succ d ih =>
    intro a mA hd hle
    unfold retryFrom
    cases hop : op a with
    | ok v => simp [hle]
    | error e =>
      by_cases he : a = mA
      · simp [he]
      · have hlt : a < mA := by omega
        have hrec := ih (a + 1) mA (by omega) (by omega)
        simp only [he, if_false, hlt, if_true, if_neg he, if_pos hlt]
        exact ⟨by omega, hrec.2⟩

theorem retryFrom_ok_attempt {T : Type} (op : Nat → Except String T) :
    ∀ d attempt maxA v, maxA - attempt ≤ d →
      (retryFrom op attempt maxA).1 = .ok v →
      op (retryFrom op attempt maxA).2 = .ok v := by
  intro d
  induction d with
  | zero =>
    intro a mA v hd h
    unfold retryFrom at h ⊢
    cases hop : op a with
    | ok w =>
      rw [hop] at h
      simp at h
      rw [hop]
      simp [h]
    | error e =>
      rw [hop] at h
      by_cases he : a = mA
      · simp [he] at h
      · by_cases hlt : a < mA
        · omega
        · simp [he, hlt] at h
  | succ d ih =>
    intro a mA v hd h
    unfold retryFrom at h ⊢
    cases hop : op a with
    | ok w =>
      rw [hop] at h
      simp at h
      rw [hop]
      simp [h]
    | error e =>
      rw [hop] at h
      by_cases he : a = mA
      · simp [he] at h
      · by_cases hlt : a < mA
        · simp only [he, if_false, hlt, if_true, if_neg he, if_pos hlt] at h ⊢
          exact ih (a + 1) mA v (by omega) h
        · simp [he, hlt] at h

theorem retryFrom_all_fail {T : Type} (op : Nat → Except String T) :
    ∀ d attempt maxA, maxA - attempt ≤ d → attempt ≤ maxA →
      (∀ n, attempt ≤ n → n ≤ maxA → ∃ e, op n = .error e) →
      ∃ msg, (retryFrom op attempt maxA).1 = .error msg := by
  intro d
  induction d with
  | zero =>
    intro a mA hd hle hfail
    have ha : a = mA := by omega
    subst ha
    obtain ⟨e, he⟩ := hfail a le_rfl le_rfl
    unfold retryFrom
    rw [he]
    simp
  | succ d ih =>
    intro a mA hd hle hfail
    obtain ⟨e, he⟩ := hfail a le_rfl hle
    unfold retryFrom
    rw [he]
    by_cases heq : a = mA
    · simp [heq]
    · have hlt : a < mA := by omega
      simp only [heq, if_false, hlt, if_true, if_neg heq, if_pos hlt]
      exact ih (a + 1) mA (by omega) (by omega)
        (fun n h1 h2 => hfail n (by omega) h2)

end Service

/-- C9: for every input and every outcome of the outbound webhook call
(network error / thrown exception, non-OK HTTP response, or success),
`AlertManager.sendAlert` completes without throwing: delivery failures
are logged and never propagate to the caller. -/
theorem c9_send_alert_never_throws :
    ∀ o : Service.WebhookOutcome, ∃ logs, Service.sendAlert o = .ok logs := by
  intro o
  cases o <;> exact ⟨_, rfl⟩

/-- C10: in every reachable state of the contract, `totalRelayerBalance`
is the sum of `relayerBalances` over any finite set of addresses that
carries all the nonzero balances; `compensateRelayer` raises one
relayer's balance and the total by the same amount, and
`withdrawRelayerBalance` lowers the withdrawing relayer's balance and
the total by the same amount, leaving all other balances unchanged. -/
theorem c10_balance_sum_invariant :
    (∀ s, GasRelayer.Reachable s → GasRelayer.BalanceSumInv s) ∧
    (∀ s hr t r g s' evs,
      GasRelayer.compensateRelayer s hr t r g = .ok (s', evs) →
      ∃ c, s'.relayerBalances r = s.relayerBalances r + c ∧
        s'.totalRelayerBalance = s.totalRelayerBalance + c ∧
        ∀ a, a ≠ r → s'.relayerBalances a = s.relayerBalances a) ∧
    (∀ s caller cb ts s' amt,
      GasRelayer.withdrawRelayerBalance s caller cb ts = .ok (s', amt) →
      amt = s.relayerBalances caller ∧ s'.relayerBalances caller = 0 ∧
        s'.totalRelayerBalance + amt = s.totalRelayerBalance ∧
        ∀ a, a ≠ caller → s'.relayerBalances a = s.relayerBalances a) := by
  refine ⟨fun s h => GasRelayer.reachable_balanceSumInv h, ?_, ?_⟩
  · intro s hr t r g s' evs h
    obtain ⟨hb, ht, -⟩ := GasRelayer.compensateRelayer_ok_balances _ _ _ _ _ _ _ h
    refine ⟨_, ?_, ht, ?_⟩
    · rw [hb, Function.update_same]
    · intro a ha
      rw [hb, Function.update_noteq ha]
  · intro s caller cb ts s' amt h
    obtain ⟨hamt, hb, ht, hle⟩ := GasRelayer.withdrawRelayerBalance_ok_balances _ _ _ _ _ _ h
    refine ⟨hamt, ?_, ?_, ?_⟩
    · rw [hb, Function.update_same]
    · rw [ht, hamt]
      omega
    · intro a ha
      rw [hb, Function.update_noteq ha]

/-- Witness for C10 at the deployment state and the empty address set. -/
theorem c10_balance_sum_invariant_witness :
    (GasRelayer.initialState 0).totalRelayerBalance =
      ∑ a ∈ (∅ : Finset Nat), (GasRelayer.initialState 0).relayerBalances a :=
  c10_balance_sum_invariant.1 _ (GasRelayer.Reachable.init 0) ∅ (fun _ _ => rfl)

/-- C3: every accepted `compensateRelayer(relayer, gasUsed)` call credits
the relayer's balance with exactly `gasPrice * gasUsed *
relayerFeeMultiplier / 100` (integer arithmetic) and emits
`RelayerCompensated` with that same amount. -/
theorem c3_compensation_amount (s : GasRelayer.State) (hr : Bool) (t r g : Nat)
    (s' : GasRelayer.State) (evs : List GasRelayer.Ev)
    (h : GasRelayer.compensateRelayer s hr t r g = .ok (s', evs)) :
    s'.relayerBalances r =
      s.relayerBalances r + s.gasPrice * g * s.relayerFeeMultiplier / 100 ∧
    GasRelayer.Ev.RelayerCompensated r
      (s.gasPrice * g * s.relayerFeeMultiplier / 100) ∈ evs := by
  have hb := GasRelayer.compensateRelayer_ok_balances _ _ _ _ _ _ _ h
  refine ⟨by rw [hb.1, Function.update_same], ?_⟩
  rw [GasRelayer.compensateRelayer_ok_iff] at h
  obtain ⟨-, -, -, -, -, -, -, -, -, rfl⟩ := h
  simp [GasRelayer.resetDailyLimit_gasPrice, GasRelayer.resetDailyLimit_mult]

/-- Witness for C3: with the deployment price of 100 gwei and multiplier
110, compensating 50000 gas credits exactly 5.5e15. -/
theorem c3_compensation_amount_witness :
    ∃ s' evs,
      GasRelayer.compensateRelayer (GasRelayer.initialState 0) true 0 7 50000 =
        .ok (s', evs) ∧
      s'.relayerBalances 7 = 5500000000000000 ∧
      GasRelayer.Ev.RelayerCompensated 7 5500000000000000 ∈ evs := by
  obtain ⟨⟨s', evs⟩, hres⟩ : ∃ p,
      GasRelayer.compensateRelayer (GasRelayer.initialState 0) true 0 7 50000 =
        .ok p := ⟨_, rfl⟩
  have hmain := c3_compensation_amount _ _ _ _ _ _ _ hres
  refine ⟨s', evs, hres, ?_, ?_⟩
  · rw [hmain.1]
    norm_num [GasRelayer.initialState]
  · have h2 := hmain.2
    norm_num [GasRelayer.initialState] at h2
    exact h2

/-- C7: `estimateGasFee(gasLimit)` returns exactly `gasPrice * gasLimit *
relayerFeeMultiplier / 100` and mutates nothing; `withdrawRelayerBalance`
leaves `gasPrice` and `relayerFeeMultiplier` unchanged, so repeated
estimates interleaved with withdrawals return identical results. -/
theorem c7_estimate_fee_pure (s : GasRelayer.State) (g caller cb : Nat) (ts : Bool)
    (hb1 : s.gasPrice * g ≤ GasRelayer.UINT256_MAX)
    (hb2 : s.gasPrice * g * s.relayerFeeMultiplier ≤ GasRelayer.UINT256_MAX) :
    GasRelayer.estimateGasFee s g =
      .ok (s.gasPrice * g * s.relayerFeeMultiplier / 100) ∧
    (GasRelayer.applyWithdraw s caller cb ts).gasPrice = s.gasPrice ∧
    (GasRelayer.applyWithdraw s caller cb ts).relayerFeeMultiplier =
      s.relayerFeeMultiplier ∧
    GasRelayer.estimateGasFee (GasRelayer.applyWithdraw s caller cb ts) g =
      GasRelayer.estimateGasFee s g := by
  obtain ⟨hg, hm⟩ := GasRelayer.applyWithdraw_price_mult s caller cb ts
  refine ⟨?_, hg, hm, GasRelayer.estimateGasFee_congr _ _ hg hm g⟩
  unfold GasRelayer.estimateGasFee
  simp only [GasRelayer.cMul_ok.mpr (And.intro hb1 rfl),
    GasRelayer.cMul_ok.mpr (And.intro hb2 rfl)]

/-- Witness for C7 at the deployment state with gas limit 21000. -/
theorem c7_estimate_fee_pure_witness :
    GasRelayer.estimateGasFee (GasRelayer.initialState 0) 21000 =
      .ok 2310000000000000 ∧
    GasRelayer.estimateGasFee
        (GasRelayer.applyWithdraw (GasRelayer.initialState 0) 0 0 true) 21000 =
      GasRelayer.estimateGasFee (GasRelayer.initialState 0) 21000 := by
  have h := c7_estimate_fee_pure (GasRelayer.initialState 0) 21000 0 0 true
    (by norm_num [GasRelayer.initialState, GasRelayer.UINT256_MAX])
    (by norm_num [GasRelayer.initialState, GasRelayer.UINT256_MAX])
  refine ⟨?_, h.2.2.2⟩
  have h1 := h.1
  norm_num [GasRelayer.initialState] at h1
  exact h1

/-- C8: `setRelayerFeeMultiplier` accepts exactly `[100, 150]`: 99 is
rejected with revert reason "Multiplier must be >= 100", 151 with
"Multiplier must be <= 150" (the multiplier unchanged in both cases),
and 120 is accepted, after which `estimateGasFee` reflects the 120%
multiplier. -/
theorem c8_set_fee_multiplier_bounds (s : GasRelayer.State) :
    (GasRelayer.setRelayerFeeMultiplier s true 99 =
        .error GasRelayer.Err.MultiplierTooLow ∧
      GasRelayer.revertReason .MultiplierTooLow = some "Multiplier must be >= 100" ∧
      GasRelayer.applySetMult s true 99 = s) ∧
    (GasRelayer.setRelayerFeeMultiplier s true 151 =
        .error GasRelayer.Err.MultiplierTooHigh ∧
      GasRelayer.revertReason .MultiplierTooHigh = some "Multiplier must be <= 150" ∧
      GasRelayer.applySetMult s true 151 = s) ∧
    (∀ m, 100 ≤ m → m ≤ 150 →
      GasRelayer.setRelayerFeeMultiplier s true m =
        .ok { s with relayerFeeMultiplier := m }) ∧
    (∀ m s', GasRelayer.setRelayerFeeMultiplier s true m = .ok s' →
      100 ≤ m ∧ m ≤ 150) ∧
    (∀ g, s.gasPrice * g ≤ GasRelayer.UINT256_MAX →
      s.gasPrice * g * 120 ≤ GasRelayer.UINT256_MAX →
      GasRelayer.estimateGasFee (GasRelayer.applySetMult s true 120) g =
        .ok (s.gasPrice * g * 120 / 100)) := by
  have hlow : GasRelayer.setRelayerFeeMultiplier s true 99 =
      .error GasRelayer.Err.MultiplierTooLow := by
    unfold GasRelayer.setRelayerFeeMultiplier
    norm_num
  have hhigh : GasRelayer.setRelayerFeeMultiplier s true 151 =
      .error GasRelayer.Err.MultiplierTooHigh := by
    unfold GasRelayer.setRelayerFeeMultiplier
    norm_num
  have hok : ∀ m, 100 ≤ m → m ≤ 150 →
      GasRelayer.setRelayerFeeMultiplier s true m =
        .ok { s with relayerFeeMultiplier := m } := by
    intro m h1 h2
    unfold GasRelayer.setRelayerFeeMultiplier
    rw [if_neg (by simp), if_neg (by omega), if_neg (by omega)]
  refine ⟨⟨hlow, rfl, ?_⟩, ⟨hhigh, rfl, ?_⟩, hok, ?_, ?_⟩
  · unfold GasRelayer.applySetMult
    rw [hlow]
  · unfold GasRelayer.applySetMult
    rw [hhigh]
  · intro m s' h
    obtain ⟨-, h1, h2⟩ := GasRelayer.setRelayerFeeMultiplier_ok_shape _ _ _ _ h
    exact ⟨h1, h2⟩
  · intro g hb1 hb2
    have h120 := hok 120 (by norm_num) (by norm_num)
    unfold GasRelayer.applySetMult
    rw [h120]
    unfold GasRelayer.estimateGasFee
    simp only [GasRelayer.cMul_ok.mpr (And.intro hb1 rfl),
      GasRelayer.cMul_ok.mpr (And.intro hb2 rfl)]

/-- Witness for C8 at the deployment state, including the accepted 120
update and the estimate that reflects it. -/
theorem c8_set_fee_multiplier_bounds_witness :
    GasRelayer.setRelayerFeeMultiplier (GasRelayer.initialState 0) true 99 =
      .error GasRelayer.Err.MultiplierTooLow ∧
    GasRelayer.setRelayerFeeMultiplier (GasRelayer.initialState 0) true 151 =
      .error GasRelayer.Err.MultiplierTooHigh ∧
    GasRelayer.setRelayerFeeMultiplier (GasRelayer.initialState 0) true 120 =
      .ok { GasRelayer.initialState 0 with relayerFeeMultiplier := 120 } ∧
    GasRelayer.estimateGasFee
        (GasRelayer.applySetMult (GasRelayer.initialState 0) true 120) 21000 =
      .ok 2520000000000000 := by
  have h := c8_set_fee_multiplier_bounds (GasRelayer.initialState 0)
  refine ⟨h.1.1, h.2.1.1, h.2.2.1 120 (by norm_num) (by norm_num), ?_⟩
  have h5 := h.2.2.2.2 21000
    (by norm_num [GasRelayer.initialState, GasRelayer.UINT256_MAX])
    (by norm_num [GasRelayer.initialState, GasRelayer.UINT256_MAX])
  norm_num [GasRelayer.initialState] at h5
  exact h5

/-- C4: `withdrawRelayerBalance` rejects `InsufficientBalance(0,0)` on a
zero balance, rejects `InsufficientBalance(balance, pooled)` when the
pooled token funds are short, otherwise zeroes the caller's balance,
decrements the global total by exactly the prior balance and transfers
the funds; every rejecting outcome (a failed transfer included) leaves
all state unchanged. -/
theorem c4_withdraw_behaviour (s : GasRelayer.State) (caller cb : Nat) (ts : Bool)
    (hpause : s.paused = false) :
    (s.relayerBalances caller = 0 →
      GasRelayer.withdrawRelayerBalance s caller cb ts =
        .error (GasRelayer.Err.InsufficientBalance 0 0) ∧
      GasRelayer.applyWithdraw s caller cb ts = s) ∧
    (s.relayerBalances caller ≠ 0 → cb < s.relayerBalances caller →
      GasRelayer.withdrawRelayerBalance s caller cb ts =
        .error (GasRelayer.Err.InsufficientBalance (s.relayerBalances caller) cb) ∧
      GasRelayer.applyWithdraw s caller cb ts = s) ∧
    (s.relayerBalances caller ≠ 0 → s.relayerBalances caller ≤ cb →
      s.relayerBalances caller ≤ s.totalRelayerBalance →
      GasRelayer.withdrawRelayerBalance s caller cb true =
        .ok ({ s with
                relayerBalances := Function.update s.relayerBalances caller 0
                totalRelayerBalance :=
                  s.totalRelayerBalance - s.relayerBalances caller },
          s.relayerBalances caller)) ∧
    (∀ e, GasRelayer.withdrawRelayerBalance s caller cb ts = .error e →
      GasRelayer.applyWithdraw s caller cb ts = s) := by
  have happly : ∀ e, GasRelayer.withdrawRelayerBalance s caller cb ts = .error e →
      GasRelayer.applyWithdraw s caller cb ts = s := by
    intro e he
    unfold GasRelayer.applyWithdraw
    rw [he]
  refine ⟨?_, ?_, ?_, happly⟩
  · intro hz
    have herr : GasRelayer.withdrawRelayerBalance s caller cb ts =
        .error (GasRelayer.Err.InsufficientBalance 0 0) := by
      unfold GasRelayer.withdrawRelayerBalance
      rw [hpause]
      simp [hz]
    exact ⟨herr, happly _ herr⟩
  · intro hz hcb
    have herr : GasRelayer.withdrawRelayerBalance s caller cb ts =
        .error (GasRelayer.Err.InsufficientBalance (s.relayerBalances caller) cb) := by
      unfold GasRelayer.withdrawRelayerBalance
      rw [hpause]
      simp only [Bool.false_eq_true, if_false, if_neg hz, if_pos hcb]
    exact ⟨herr, happly _ herr⟩
  · intro hz hcb hle
    exact (GasRelayer.withdrawRelayerBalance_ok_iff s caller cb true _ _).mpr
      ⟨hpause, hz, hcb, hle, rfl, rfl, rfl⟩

/-- Witness for C4: a zero-balance withdrawal from the deployment state
is rejected with `InsufficientBalance(0,0)`, and relayer 3 of
`fundedState` withdraws its full 100 wei. -/
theorem c4_withdraw_behaviour_witness :
    GasRelayer.withdrawRelayerBalance (GasRelayer.initialState 0) 3 0 true =
      .error (GasRelayer.Err.InsufficientBalance 0 0) ∧
    GasRelayer.withdrawRelayerBalance GasRelayer.fundedState 3 100 true =
      .ok ({ GasRelayer.fundedState with
              relayerBalances :=
                Function.update GasRelayer.fundedState.relayerBalances 3 0
              totalRelayerBalance := 0 },
        100) := by
  constructor
  · exact ((c4_withdraw_behaviour (GasRelayer.initialState 0) 3 0 true rfl).1 rfl).1
  · have h := (c4_withdraw_behaviour GasRelayer.fundedState 3 100 true rfl).2.2.1
      (by norm_num [GasRelayer.fundedState, GasRelayer.initialState])
      (by norm_num [GasRelayer.fundedState, GasRelayer.initialState])
      (by norm_num [GasRelayer.fundedState, GasRelayer.initialState])
    rw [h]
    norm_num [GasRelayer.fundedState, GasRelayer.initialState]

/-- C1: circuit breaker. `dailyCompensation` is reset to zero by
`resetDailyLimit` exactly when at least 24h have elapsed since
`lastDailyReset`; a call whose computed compensation added to the
(post-reset) running total would exceed `MAX_DAILY_COMPENSATION` reverts
in full with `DailyLimitExceeded`, crediting nothing; and the running
total after any accepted call never exceeds the cap. -/
theorem c1_circuit_breaker (s : GasRelayer.State) (t r g : Nat) :
    ((GasRelayer.resetDailyLimit s t).1.dailyCompensation =
      if s.lastDailyReset + GasRelayer.ONE_DAY ≤ t then 0
      else s.dailyCompensation) ∧
    ((GasRelayer.resetDailyLimit s t).1.lastDailyReset =
      if s.lastDailyReset + GasRelayer.ONE_DAY ≤ t then t
      else s.lastDailyReset) ∧
    (s.paused = false →
      (GasRelayer.resetDailyLimit s t).1.gasPrice * g ≤ GasRelayer.UINT256_MAX →
      (GasRelayer.resetDailyLimit s t).1.gasPrice * g *
          (GasRelayer.resetDailyLimit s t).1.relayerFeeMultiplier
        ≤ GasRelayer.UINT256_MAX →
      (GasRelayer.resetDailyLimit s t).1.dailyCompensation +
          (GasRelayer.resetDailyLimit s t).1.gasPrice * g *
            (GasRelayer.resetDailyLimit s t).1.relayerFeeMultiplier / 100
        ≤ GasRelayer.UINT256_MAX →
      GasRelayer.MAX_DAILY_COMPENSATION <
          (GasRelayer.resetDailyLimit s t).1.dailyCompensation +
            (GasRelayer.resetDailyLimit s t).1.gasPrice * g *
              (GasRelayer.resetDailyLimit s t).1.relayerFeeMultiplier / 100 →
      GasRelayer.compensateRelayer s true t r g =
        .error (GasRelayer.Err.DailyLimitExceeded
          ((GasRelayer.resetDailyLimit s t).1.gasPrice * g *
            (GasRelayer.resetDailyLimit s t).1.relayerFeeMultiplier / 100)
          (GasRelayer.MAX_DAILY_COMPENSATION -
            (GasRelayer.resetDailyLimit s t).1.dailyCompensation)) ∧
      GasRelayer.applyCompensate s true t r g = s) ∧
    (∀ hr s' evs, GasRelayer.compensateRelayer s hr t r g = .ok (s', evs) →
      s'.dailyCompensation ≤ GasRelayer.MAX_DAILY_COMPENSATION) := by
  refine ⟨GasRelayer.resetDailyLimit_daily s t, GasRelayer.resetDailyLimit_lastReset s t,
    ?_, ?_⟩
  · intro hpause hb1 hb2 hb3 hover
    have e1 : GasRelayer.cMul (GasRelayer.resetDailyLimit s t).1.gasPrice g =
        .ok ((GasRelayer.resetDailyLimit s t).1.gasPrice * g) :=
      GasRelayer.cMul_ok.mpr ⟨hb1, rfl⟩
    have e2 : GasRelayer.cMul ((GasRelayer.resetDailyLimit s t).1.gasPrice * g)
        (GasRelayer.resetDailyLimit s t).1.relayerFeeMultiplier =
        .ok ((GasRelayer.resetDailyLimit s t).1.gasPrice * g *
          (GasRelayer.resetDailyLimit s t).1.relayerFeeMultiplier) :=
      GasRelayer.cMul_ok.mpr ⟨hb2, rfl⟩
    have e3 : GasRelayer.cAdd (GasRelayer.resetDailyLimit s t).1.dailyCompensation
        ((GasRelayer.resetDailyLimit s t).1.gasPrice * g *
          (GasRelayer.resetDailyLimit s t).1.relayerFeeMultiplier / 100) =
        .ok ((GasRelayer.resetDailyLimit s t).1.dailyCompensation +
          (GasRelayer.resetDailyLimit s t).1.gasPrice * g *
            (GasRelayer.resetDailyLimit s t).1.relayerFeeMultiplier / 100) :=
      GasRelayer.cAdd_ok.mpr ⟨hb3, rfl⟩
    have herr : GasRelayer.compensateRelayer s true t r g =
        .error (GasRelayer.Err.DailyLimitExceeded
          ((GasRelayer.resetDailyLimit s t).1.gasPrice * g *
            (GasRelayer.resetDailyLimit s t).1.relayerFeeMultiplier / 100)
          (GasRelayer.MAX_DAILY_COMPENSATION -
            (GasRelayer.resetDailyLimit s t).1.dailyCompensation)) := by
      unfold GasRelayer.compensateRelayer
      rw [hpause]
      simp only [Bool.false_eq_true, if_false, Bool.true_eq_false, e1, e2, e3,
        if_pos hover]
    refine ⟨herr, ?_⟩
    unfold GasRelayer.applyCompensate
    rw [herr]
  · intro hr s' evs h
    rw [GasRelayer.compensateRelayer_ok_iff] at h
    obtain ⟨-, -, -, -, -, hcap, -, -, rfl, -⟩ := h
    simpa using hcap

/-- Witness for C1: with the daily total already at the cap, a 50000-gas
compensation at deployment price is rejected in full with
`DailyLimitExceeded(5.5e15, 0)` and the state is unchanged. -/
theorem c1_circuit_breaker_witness :
    GasRelayer.compensateRelayer GasRelayer.atCapState true 0 5 50000 =
      .error (GasRelayer.Err.DailyLimitExceeded 5500000000000000 0) ∧
    GasRelayer.applyCompensate GasRelayer.atCapState true 0 5 50000 =
      GasRelayer.atCapState := by
  have h := (c1_circuit_breaker GasRelayer.atCapState 0 5 50000).2.2.1 rfl
    (by norm_num [GasRelayer.resetDailyLimit, GasRelayer.atCapState,
      GasRelayer.initialState, GasRelayer.ONE_DAY, GasRelayer.UINT256_MAX])
    (by norm_num [GasRelayer.resetDailyLimit, GasRelayer.atCapState,
      GasRelayer.initialState, GasRelayer.ONE_DAY, GasRelayer.UINT256_MAX])
    (by norm_num [GasRelayer.resetDailyLimit, GasRelayer.atCapState,
      GasRelayer.initialState, GasRelayer.ONE_DAY, GasRelayer.UINT256_MAX,
      GasRelayer.MAX_DAILY_COMPENSATION])
    (by norm_num [GasRelayer.resetDailyLimit, GasRelayer.atCapState,
      GasRelayer.initialState, GasRelayer.ONE_DAY,
      GasRelayer.MAX_DAILY_COMPENSATION])
  obtain ⟨h1, h2⟩ := h
  norm_num [GasRelayer.resetDailyLimit, GasRelayer.atCapState,
    GasRelayer.initialState, GasRelayer.ONE_DAY,
    GasRelayer.MAX_DAILY_COMPENSATION] at h1
  exact ⟨h1, h2⟩

/-- C2: `updateGasPrice` gate sequence. Before `lastUpdated + interval`
the call reverts `TooSoon` (reason "Too soon to update") with no state
change; an observed price outside `[MIN_GAS_PRICE, MAX_GAS_PRICE]`
reverts `InvalidGasPrice`; with `deviation = |new - old| * 100 / old`, a
deviation above 50 reverts `SuspiciousPriceMovement`, one in (30, 50]
applies the update and also emits the `PriceDeviationDetected` alert,
and any other deviation applies silently; every applying outcome sets
`gasPrice` and `gasPriceLastUpdated` and emits `GasPriceUpdated`, and
every reverting outcome leaves the state unchanged. -/
theorem c2_update_gas_price_gates (s : GasRelayer.State) (t p : Nat)
    (hpause : s.paused = false) :
    (t < s.gasPriceLastUpdated + GasRelayer.GAS_PRICE_UPDATE_INTERVAL →
      GasRelayer.updateGasPrice s true t p = .error GasRelayer.Err.TooSoon ∧
      GasRelayer.revertReason .TooSoon = some "Too soon to update" ∧
      GasRelayer.applyUpdate s true t p = s) ∧
    (s.gasPriceLastUpdated + GasRelayer.GAS_PRICE_UPDATE_INTERVAL ≤ t →
      (p < GasRelayer.MIN_GAS_PRICE ∨ GasRelayer.MAX_GAS_PRICE < p) →
      GasRelayer.updateGasPrice s true t p = .error (.InvalidGasPrice p) ∧
      GasRelayer.applyUpdate s true t p = s) ∧
    (s.gasPriceLastUpdated + GasRelayer.GAS_PRICE_UPDATE_INTERVAL ≤ t →
      GasRelayer.MIN_GAS_PRICE ≤ p → p ≤ GasRelayer.MAX_GAS_PRICE →
      0 < s.gasPrice →
      (if s.gasPrice < p then p - s.gasPrice else s.gasPrice - p) * 100
        ≤ GasRelayer.UINT256_MAX →
      (GasRelayer.MAX_PRICE_DEVIATION <
          (if s.gasPrice < p then p - s.gasPrice else s.gasPrice - p) * 100
            / s.gasPrice →
        GasRelayer.updateGasPrice s true t p =
          .error (.SuspiciousPriceMovement s.gasPrice p) ∧
        GasRelayer.applyUpdate s true t p = s) ∧
      (30 < (if s.gasPrice < p then p - s.gasPrice else s.gasPrice - p) * 100
          / s.gasPrice →
        (if s.gasPrice < p then p - s.gasPrice else s.gasPrice - p) * 100
            / s.gasPrice ≤ GasRelayer.MAX_PRICE_DEVIATION →
        GasRelayer.updateGasPrice s true t p =
          .ok ({ s with gasPrice := p, gasPriceLastUpdated := t },
            [.PriceDeviationDetected s.gasPrice p
              ((if s.gasPrice < p then p - s.gasPrice else s.gasPrice - p) * 100
                / s.gasPrice),
             .GasPriceUpdated p t])) ∧
      ((if s.gasPrice < p then p - s.gasPrice else s.gasPrice - p) * 100
          / s.gasPrice ≤ 30 →
        GasRelayer.updateGasPrice s true t p =
          .ok ({ s with gasPrice := p, gasPriceLastUpdated := t },
            [.GasPriceUpdated p t]))) ∧
    (∀ e, GasRelayer.updateGasPrice s true t p = .error e →
      GasRelayer.applyUpdate s true t p = s) ∧
    (∀ s' evs, GasRelayer.updateGasPrice s true t p = .ok (s', evs) →
      s' = { s with gasPrice := p, gasPriceLastUpdated := t } ∧
      GasRelayer.Ev.GasPriceUpdated p t ∈ evs) := by
  have happly : ∀ e, GasRelayer.updateGasPrice s true t p = .error e →
      GasRelayer.applyUpdate s true t p = s := by
    intro e he
    unfold GasRelayer.applyUpdate
    rw [he]
  refine ⟨?_, ?_, ?_, happly,
    fun s' evs h => GasRelayer.updateGasPrice_ok_frame s true t p s' evs h⟩
  · intro h1
    have herr : GasRelayer.updateGasPrice s true t p =
        .error GasRelayer.Err.TooSoon := by
      unfold GasRelayer.updateGasPrice
      rw [hpause]
      simp only [Bool.false_eq_true, if_false, Bool.true_eq_false, if_pos h1]
    exact ⟨herr, rfl, happly _ herr⟩
  · intro h1 h2
    have herr : GasRelayer.updateGasPrice s true t p =
        .error (GasRelayer.Err.InvalidGasPrice p) := by
      unfold GasRelayer.updateGasPrice
      rw [hpause]
      simp only [Bool.false_eq_true, if_false, Bool.true_eq_false,
        if_neg (show ¬ t < s.gasPriceLastUpdated +
          GasRelayer.GAS_PRICE_UPDATE_INTERVAL from by omega), if_pos h2]
    exact ⟨herr, happly _ herr⟩
  · intro h1 h2 h3 hpos hover
    have e1 : GasRelayer.cMul
        (if s.gasPrice < p then p - s.gasPrice else s.gasPrice - p) 100 =
        .ok ((if s.gasPrice < p then p - s.gasPrice else s.gasPrice - p) * 100) :=
      GasRelayer.cMul_ok.mpr ⟨hover, rfl⟩
    refine ⟨?_, ?_, ?_⟩
    · intro hdev
      have herr : GasRelayer.updateGasPrice s true t p =
          .error (.SuspiciousPriceMovement s.gasPrice p) := by
        unfold GasRelayer.updateGasPrice
        rw [hpause]
        simp only [Bool.false_eq_true, if_false, Bool.true_eq_false,
          if_neg (show ¬ t < s.gasPriceLastUpdated +
            GasRelayer.GAS_PRICE_UPDATE_INTERVAL from by omega),
          if_neg (show ¬ (p < GasRelayer.MIN_GAS_PRICE ∨
            GasRelayer.MAX_GAS_PRICE < p) from by omega),
          if_pos hpos, e1, if_pos hdev]
      exact ⟨herr, happly _ herr⟩
    · intro hdev1 hdev2
      unfold GasRelayer.updateGasPrice
      rw [hpause]
      simp only [Bool.false_eq_true, if_false, Bool.true_eq_false,
        if_neg (show ¬ t < s.gasPriceLastUpdated +
          GasRelayer.GAS_PRICE_UPDATE_INTERVAL from by omega),
        if_neg (show ¬ (p < GasRelayer.MIN_GAS_PRICE ∨
          GasRelayer.MAX_GAS_PRICE < p) from by omega),
        if_pos hpos, e1, if_neg (show ¬ GasRelayer.MAX_PRICE_DEVIATION <
          (if s.gasPrice < p then p - s.gasPrice else s.gasPrice - p) * 100
            / s.gasPrice from by omega), if_pos hdev1]
    · intro hdev
      unfold GasRelayer.updateGasPrice
      rw [hpause]
      simp only [Bool.false_eq_true, if_false, Bool.true_eq_false,
        if_neg (show ¬ t < s.gasPriceLastUpdated +
          GasRelayer.GAS_PRICE_UPDATE_INTERVAL from by omega),
        if_neg (show ¬ (p < GasRelayer.MIN_GAS_PRICE ∨
          GasRelayer.MAX_GAS_PRICE < p) from by omega),
        if_pos hpos, e1, if_neg (show ¬ GasRelayer.MAX_PRICE_DEVIATION <
          (if s.gasPrice < p then p - s.gasPrice else s.gasPrice - p) * 100
            / s.gasPrice from by
              unfold GasRelayer.MAX_PRICE_DEVIATION
              omega),
        if_neg (show ¬ 30 < (if s.gasPrice < p then p - s.gasPrice
          else s.gasPrice - p) * 100 / s.gasPrice from by omega)]

/-- Witness for C2: one hour after deployment an observed price of
130 gwei (deviation exactly 30) is applied silently; at deployment time
the same call is `TooSoon`. -/
theorem c2_update_gas_price_gates_witness :
    GasRelayer.updateGasPrice (GasRelayer.initialState 0) true 0 130000000000 =
      .error GasRelayer.Err.TooSoon ∧
    GasRelayer.updateGasPrice (GasRelayer.initialState 0) true 3600 130000000000 =
      .ok ({ GasRelayer.initialState 0 with
              gasPrice := 130000000000
              gasPriceLastUpdated := 3600 },
        [GasRelayer.Ev.GasPriceUpdated 130000000000 3600]) := by
  constructor
  · exact ((c2_update_gas_price_gates (GasRelayer.initialState 0) 0 130000000000
      rfl).1 (by norm_num [GasRelayer.initialState,
        GasRelayer.GAS_PRICE_UPDATE_INTERVAL])).1
  · have h := (c2_update_gas_price_gates (GasRelayer.initialState 0) 3600
      130000000000 rfl).2.2.1
      (by norm_num [GasRelayer.initialState, GasRelayer.GAS_PRICE_UPDATE_INTERVAL])
      (by norm_num [GasRelayer.initialState, GasRelayer.MIN_GAS_PRICE])
      (by norm_num [GasRelayer.initialState, GasRelayer.MAX_GAS_PRICE])
      (by norm_num [GasRelayer.initialState])
      (by norm_num [GasRelayer.initialState, GasRelayer.UINT256_MAX])
    exact h.2.2 (by norm_num [GasRelayer.initialState])

/-- C5 counterexample: the service layer wraps the `compensateRelayer`
and `withdrawRelayerBalance` contract calls in `retryWithBackoff`; with
a call that fails transiently on attempt 1 and succeeds on attempt 2,
one service invocation performs two contract-call attempts and swallows
the first failure, so the contract call is not attempted at most once
and a failure does not surface immediately. -/
theorem c5_no_auto_retry_counterexample :
    Service.flakyCall 1 = .error "RPC timeout" ∧
    Service.serviceCompensateRelayer Service.flakyCall = (.ok (), 2, []) ∧
    (Service.serviceCompensateRelayer Service.flakyCall).2.1 ≠ 1 ∧
    Service.serviceWithdrawRelayerBalance Service.flakyCall = (.ok (), 2, []) := by
  have h1 : Service.retryWithBackoff Service.flakyCall 3 = (.ok (), 2) := by
    unfold Service.retryWithBackoff
    unfold Service.retryFrom
    norm_num [Service.flakyCall]
    unfold Service.retryFrom
    norm_num [Service.flakyCall]
  have h2 : Service.serviceCompensateRelayer Service.flakyCall = (.ok (), 2, []) := by
    unfold Service.serviceCompensateRelayer Service.defaultMaxAttempts
    rw [h1]
  have h3 : Service.serviceWithdrawRelayerBalance Service.flakyCall =
      (.ok (), 2, []) := by
    unfold Service.serviceWithdrawRelayerBalance Service.defaultMaxAttempts
    rw [h1]
  refine ⟨rfl, h2, ?_, h3⟩
  rw [h2]
  norm_num

/-- C5 amended: the service-layer `compensateRelayer` and
`withdrawRelayerBalance` auto-retry the underlying contract call with
bounded exponential backoff — between 1 and `defaultMaxAttempts` (= 3)
attempts per invocation; a first-attempt success is returned without
retrying, and only when every allowed attempt fails does the failure
surface to the caller (together with an alert). -/
theorem c5_bounded_retry_amended (op : Nat → Except String Unit) :
    (1 ≤ (Service.serviceCompensateRelayer op).2.1 ∧
      (Service.serviceCompensateRelayer op).2.1 ≤ Service.defaultMaxAttempts) ∧
    (∀ v, op 1 = .ok v → Service.serviceCompensateRelayer op = (.ok v, 1, [])) ∧
    ((∀ n, 1 ≤ n → n ≤ Service.defaultMaxAttempts → ∃ e, op n = .error e) →
      ∃ msg, (Service.serviceCompensateRelayer op).1 = .error msg ∧
        (Service.serviceCompensateRelayer op).2.2 =
          ["Relayer Compensation Failed"]) ∧
    (1 ≤ (Service.serviceWithdrawRelayerBalance op).2.1 ∧
      (Service.serviceWithdrawRelayerBalance op).2.1 ≤ Service.defaultMaxAttempts) ∧
    (∀ v, op 1 = .ok v →
      Service.serviceWithdrawRelayerBalance op = (.ok v, 1, [])) ∧
    ((∀ n, 1 ≤ n → n ≤ Service.defaultMaxAttempts → ∃ e, op n = .error e) →
      ∃ msg, (Service.serviceWithdrawRelayerBalance op).1 = .error msg ∧
        (Service.serviceWithdrawRelayerBalance op).2.2 = ["Withdrawal Failed"]) := by
  have hbounds := Service.retryFrom_exit_bounds op 3 1 3 (by norm_num) (by norm_num)
  have hcomp := Service.serviceCompensateRelayer_eq op
  have hwith := Service.serviceWithdrawRelayerBalance_eq op
  have hfirst : ∀ v, op 1 = .ok v →
      Service.retryWithBackoff op Service.defaultMaxAttempts = (.ok v, 1) := by
    intro v hv
    unfold Service.retryWithBackoff
    exact Service.retryFrom_first_ok op 1 _ v hv
  have hfail : (∀ n, 1 ≤ n → n ≤ Service.defaultMaxAttempts → ∃ e, op n = .error e) →
      ∃ msg, (Service.retryWithBackoff op Service.defaultMaxAttempts).1 =
        .error msg := by
    intro hall
    exact Service.retryFrom_all_fail op 3 1 3 (by norm_num) (by norm_num) hall
  refine ⟨?_, ?_, ?_, ?_, ?_, ?_⟩
  · rw [hcomp]
    exact hbounds
  · intro v hv
    rw [hcomp, hfirst v hv]
  · intro hall
    obtain ⟨msg, hmsg⟩ := hfail hall
    refine ⟨msg, ?_, ?_⟩ <;> rw [hcomp] <;> simp [hmsg]
  · rw [hwith]
    exact hbounds
  · intro v hv
    rw [hwith, hfirst v hv]
  · intro hall
    obtain ⟨msg, hmsg⟩ := hfail hall
    refine ⟨msg, ?_, ?_⟩ <;> rw [hwith] <;> simp [hmsg]

/-- Witness for C5 amended: a contract call that succeeds immediately is
attempted exactly once by both service wrappers. -/
theorem c5_bounded_retry_amended_witness :
    Service.serviceCompensateRelayer Service.alwaysOk = (.ok (), 1, []) ∧
    Service.serviceWithdrawRelayerBalance Service.alwaysOk = (.ok (), 1, []) :=
  ⟨(c5_bounded_retry_amended Service.alwaysOk).2.1 () rfl,
   (c5_bounded_retry_amended Service.alwaysOk).2.2.2.2.1 () rfl⟩

/-- C6 counterexample: `setRelayerFeeMultiplier` carries no
`whenNotPaused` modifier, so while the system is paused it is not
rejected with the paused error and it does change state. -/
theorem c6_pause_gating_counterexample :
    GasRelayer.pausedInit.paused = true ∧
    GasRelayer.setRelayerFeeMultiplier GasRelayer.pausedInit true 120 ≠
      .error GasRelayer.Err.SystemPaused ∧
    GasRelayer.setRelayerFeeMultiplier GasRelayer.pausedInit true 120 =
      .ok { GasRelayer.pausedInit with relayerFeeMultiplier := 120 } ∧
    GasRelayer.applySetMult GasRelayer.pausedInit true 120 ≠
      GasRelayer.pausedInit := by
  have hok : GasRelayer.setRelayerFeeMultiplier GasRelayer.pausedInit true 120 =
      .ok { GasRelayer.pausedInit with relayerFeeMultiplier := 120 } := by
    unfold GasRelayer.setRelayerFeeMultiplier
    norm_num
  refine ⟨rfl, ?_, hok, ?_⟩
  · rw [hok]
    simp
  · unfold GasRelayer.applySetMult
    rw [hok]
    intro hEq
    have := congrArg GasRelayer.State.relayerFeeMultiplier hEq
    norm_num [GasRelayer.pausedInit, GasRelayer.initialState] at this

/-- C6 amended: while paused, `updateGasPrice`, `compensateRelayer` and
`withdrawRelayerBalance` are rejected with the paused error and change
no state; `setRelayerFeeMultiplier` is not pause-gated and remains
callable while paused; and an emergency withdrawal is only possible
while paused. -/
theorem c6_pause_gating_amended (s : GasRelayer.State) (hp : s.paused = true) :
    (∀ t p, GasRelayer.updateGasPrice s true t p =
      .error GasRelayer.Err.SystemPaused ∧ GasRelayer.applyUpdate s true t p = s) ∧
    (∀ t r g, GasRelayer.compensateRelayer s true t r g =
      .error GasRelayer.Err.SystemPaused ∧
      GasRelayer.applyCompensate s true t r g = s) ∧
    (∀ caller cb ts, GasRelayer.withdrawRelayerBalance s caller cb ts =
      .error GasRelayer.Err.SystemPaused ∧
      GasRelayer.applyWithdraw s caller cb ts = s) ∧
    (∀ m, 100 ≤ m → m ≤ 150 → GasRelayer.setRelayerFeeMultiplier s true m =
      .ok { s with relayerFeeMultiplier := m }) ∧
    (∀ s2 ha tok rcp amt ts s' evs,
      GasRelayer.emergencyWithdraw s2 ha tok rcp amt ts = .ok (s', evs) →
      s2.paused = true) := by
  refine ⟨?_, ?_, ?_, ?_, ?_⟩
  · intro t p
    have herr : GasRelayer.updateGasPrice s true t p =
        .error GasRelayer.Err.SystemPaused := by
      unfold GasRelayer.updateGasPrice
      rw [hp]
      simp
    refine ⟨herr, ?_⟩
    unfold GasRelayer.applyUpdate
    rw [herr]
  · intro t r g
    have herr : GasRelayer.compensateRelayer s true t r g =
        .error GasRelayer.Err.SystemPaused := by
      unfold GasRelayer.compensateRelayer
      rw [hp]
      simp
    refine ⟨herr, ?_⟩
    unfold GasRelayer.applyCompensate
    rw [herr]
  · intro caller cb ts
    have herr : GasRelayer.withdrawRelayerBalance s caller cb ts =
        .error GasRelayer.Err.SystemPaused := by
      unfold GasRelayer.withdrawRelayerBalance
      rw [hp]
      simp
    refine ⟨herr, ?_⟩
    unfold GasRelayer.applyWithdraw
    rw [herr]
  · intro m h1 h2
    unfold GasRelayer.setRelayerFeeMultiplier
    rw [if_neg (by simp), if_neg (by omega), if_neg (by omega)]
  · intro s2 ha tok rcp amt ts s' evs h
    exact (GasRelayer.emergencyWithdraw_ok_shape _ _ _ _ _ _ _ _ h).2

/-- Witness for C6 amended at the paused deployment state. -/
theorem c6_pause_gating_amended_witness :
    GasRelayer.updateGasPrice GasRelayer.pausedInit true 3600 130000000000 =
      .error GasRelayer.Err.SystemPaused ∧
    GasRelayer.compensateRelayer GasRelayer.pausedInit true 0 5 50000 =
      .error GasRelayer.Err.SystemPaused ∧
    GasRelayer.withdrawRelayerBalance GasRelayer.pausedInit 3 100 true =
      .error GasRelayer.Err.SystemPaused ∧
    GasRelayer.setRelayerFeeMultiplier GasRelayer.pausedInit true 130 =
      .ok { GasRelayer.pausedInit with relayerFeeMultiplier := 130 } := by
  have h := c6_pause_gating_amended GasRelayer.pausedInit rfl
  exact ⟨(h.1 3600 130000000000).1, (h.2.1 0 5 50000).1, (h.2.2.1 3 100 true).1,
    h.2.2.2.1 130 (by norm_num) (by norm_num)⟩
